import Mathlib

/-!
# songslib: a verification development

A shallow embedding of the Go service `lim-bo/songslib`:

* `models`                      : `Song`, `SongDetailed`, `Lyrics`;
* `internal/libManager`         : `Manager.CreateSong`, `DeleteSong`,
  `GetSongsPage`, `UpdateSongData`;
* `internal/musicInfo`          : `MIManager.GetSongDetails`;
* `internal/api`                : `AddNewSong`, `ReadSongLyricsPage`,
  `PaginationMiddleware`.

Conventions.  A Go `string` is a `String`; the separators the code looks for
(newline, `;`, `AND`) are ASCII, so the character view and the byte view agree.
A Go `int` is an `Int` with the arithmetic of the code wrapped to 64 bits by
`wrap64`.  A Go `error` is an `Option GoError` (`none` is `nil`); a pointer
result that may be `nil` is an `Option`.  Collaborators reached through an
interface or a network (the relational backend, the remote metadata service,
the response writer) are parameters of the embedded function, and every call
made on them is recorded in a trace that the function returns.
-/

namespace Songslib

/-! ## Go primitives -/

/-- Two's complement wrap of an integer to the range of a 64-bit Go `int`. -/
def wrap64 (x : Int) : Int := (x + 2 ^ 63) % 2 ^ 64 - 2 ^ 63

/-- Error values the service creates or compares against.  `errorString` is
what `errors.New` builds; `joinError` is what `errors.Join` builds from the
messages of its non-nil arguments. -/
inductive GoError where
  | ErrNoRows
  | ErrBadFilterParams
  | pgxErrNoRows
  | errorString (msg : String)
  | joinError (msgs : List String)
deriving DecidableEq, Repr

namespace GoError

/-- The text of `err.Error()`. -/
def Error : GoError → String
  | ErrNoRows => "no matching result"
  | ErrBadFilterParams => "bad query params for filtering"
  | pgxErrNoRows => "no rows in result set"
  | errorString msg => msg
  | joinError msgs => "\n".intercalate msgs

end GoError

/-- Go's `errors.Join`: nil arguments are dropped, and the result is nil when
nothing is left. -/
def errorsJoin (errs : List (Option GoError)) : Option GoError :=
  match errs.filterMap id with
  | [] => none
  | es => some (.joinError (es.map GoError.Error))

/-- Result of running a Go function body: it returns a value, it panics, or
the fuel given to one of its loops ran out. -/
inductive Exec (α : Type) where
  | done (a : α)
  | panic (reason : String)
  | outOfFuel
deriving DecidableEq, Repr

/-- Worker of `Split`: `acc` holds the current piece, reversed. -/
def splitChars (sep : Char) : List Char → List Char → List String
  | acc, [] => [String.mk acc.reverse]
  | acc, c :: cs =>
    if c = sep then String.mk acc.reverse :: splitChars sep [] cs
    else splitChars sep (c :: acc) cs

/-- Go's `strings.Split(s, sep)` for a one-byte separator. -/
def Split (s : String) (sep : Char) : List String := splitChars sep [] s.data

/-- Go's `strings.TrimSuffix(s, suffix)`. -/
def TrimSuffix (s suffix : String) : String :=
  if suffix.data.isSuffixOf s.data then
    String.mk (s.data.take (s.data.length - suffix.data.length))
  else s

/-- Go's `strings.Contains(s, substr)`. -/
def Contains (s substr : String) : Bool := decide (substr.data <:+: s.data)

/-! ## models -/

structure Song where
  Group : String
  Name : String
deriving DecidableEq, Repr

structure SongDetailed extends Song where
  ReleaseDate : String
  Text : String
  Link : String
deriving DecidableEq, Repr

structure Lyrics where
  Page : Int
  Text : List String
deriving DecidableEq, Repr

/-- The zero value of `models.SongDetailed` (`var sd models.SongDetailed`). -/
def SongDetailed.zero : SongDetailed :=
  { Group := "", Name := "", ReleaseDate := "", Text := "", Link := "" }

/-! ## internal/api: the response writer and `ReadSongLyricsPage` -/

/-- What a handler does to its `http.ResponseWriter`, in order. -/
inductive WriterEvent where
  | WriteHeader (code : Nat)
  | EncodeLyrics (body : Lyrics)
deriving DecidableEq, Repr

/-- A handler run: the writer events so far and whether the body panicked. -/
structure HandlerRun where
  events : List WriterEvent
  panicked : Option String
deriving DecidableEq, Repr

/-- The loop of `ReadSongLyricsPage`,
`for i := page * limit; i < len(couplets) && i < limit; i++
   { result = append(result, couplets[i]) }`,
run from the loop variable `i` with `result` collected so far.  Indexing with
a negative `i` panics. -/
def lyricsLoop (couplets : List String) (limit : Int) :
    Nat → Int → List String → Exec (List String)
  | 0, i, result =>
    if i < couplets.length ∧ i < limit then .outOfFuel else .done result
  | fuel + 1, i, result =>
    if i < couplets.length ∧ i < limit then
      if i < 0 then .panic "index out of range"
      else lyricsLoop couplets limit fuel (i + 1)
        (result ++ [couplets.getD i.toNat ""])
    else .done result

/-- The couplets `ReadSongLyricsPage` selects from a lyrics text: the
statements `couplets := strings.Split(s.Text, "\n")`, `result := make(...)`
and the loop. -/
def lyricsPage (text : String) (page limit : Int) : Exec (List String) :=
  let couplets := Split text '\n'
  lyricsLoop couplets limit (couplets.length + 1) (wrap64 (page * limit)) []

/-- Go map lookup `v, ok := m[key]` on `mux.Vars(r)`. -/
def lookupVar (vars : List (String × String)) (key : String) : Option String :=
  (vars.find? (fun kv => kv.1 = key)).map Prod.snd

/-- The handler `SongsLibAPI.ReadSongLyricsPage`.  `page` and `limit` are the
values the pagination middleware put in the request context, `vars` is
`mux.Vars(r)`, `GetSong` is `api.lm.GetSong` (record pointer and error) and
`encodeErr` is the error `json.NewEncoder(w).Encode` returns. -/
def ReadSongLyricsPage (GetSong : Song → Option SongDetailed × Option GoError)
    (encodeErr : Lyrics → Option GoError) (vars : List (String × String))
    (page limit : Int) : HandlerRun :=
  match lookupVar vars "song_name" with
  | none => ⟨[.WriteHeader 404], none⟩
  | some name =>
    match lookupVar vars "group_name" with
    | none => ⟨[.WriteHeader 404], none⟩
    | some group =>
      let (s, err) := GetSong { Name := name, Group := group }
      let w : List WriterEvent :=
        match err with
        | none => []
        | some e =>
          if e = .ErrNoRows then [.WriteHeader 400] else [.WriteHeader 500]
      match s with
      | none => ⟨w, some "nil pointer dereference"⟩
      | some sd =>
        match lyricsPage sd.Text page limit with
        | .panic reason => ⟨w, some reason⟩
        | .outOfFuel => ⟨w, some "out of fuel"⟩
        | .done result =>
          -- `result` comes from `make`, so `result == nil` is never true
          match encodeErr { Page := page, Text := result } with
          | some _ => ⟨w ++ [.WriteHeader 500], none⟩
          | none =>
            ⟨w ++ [.EncodeLyrics { Page := page, Text := result },
              .WriteHeader 200], none⟩

/-- The couplet list in the body a handler run encoded, if it encoded one. -/
def HandlerRun.lyricsText (r : HandlerRun) : Option (List String) :=
  r.events.findSome? fun
    | .EncodeLyrics body => some body.Text
    | _ => none

/-! ## internal/libManager -/

/-- A value bound to a `$n` placeholder of a statement. -/
inductive SqlArg where
  | int (v : Int)
  | str (v : String)
deriving DecidableEq, Repr

/-- A statement handed to the pool: its SQL text and its bound arguments. -/
structure Statement where
  sql : String
  args : List SqlArg
deriving DecidableEq, Repr

/-- The `pgconn.CommandTag` of an executed statement. -/
structure CommandTag where
  RowsAffected : Int
deriving DecidableEq, Repr

/-- What `pool.Query` gives back: an error, or a result set whose rows are
each scanned with success or with an error. -/
inductive QueryResult where
  | error (e : GoError)
  | rows (rs : List (Except GoError SongDetailed))

/-- Go's `make([]T, 0, cap)` with a run-time capacity: it panics for a
negative capacity and for one above `maxCap`, the largest capacity the
runtime can allocate on the platform. -/
def makesliceOk (maxCap cap : Int) : Bool := decide (0 ≤ cap ∧ cap ≤ maxCap)

/-- One round of the loop `for key, value := range filter` of `GetSongsPage`:
`filterCondition += key + "=" + value + " AND"`. -/
def filterStep (filterCondition : String) (kv : String × String) : String :=
  filterCondition ++ (kv.1 ++ "=" ++ kv.2 ++ " AND")

/-- The string `filterCondition` that `GetSongsPage` builds from the filter,
whose entries are listed in the order the `range` loop visits them. -/
def filterCondition (filter : List (String × String)) : String :=
  if filter.length ≠ 0 then
    TrimSuffix (filter.foldl filterStep (" " ++ "WHERE ")) "AND"
  else " "

/-- The fixed head of the query of `GetSongsPage`. -/
def selectSongs : String :=
  "SELECT name, group, release_date, lyrics, link FROM songs\n\tLEFT JOIN groups ON songs.group = groups.id"

/-- The statement `GetSongsPage` sends to the pool. -/
def pageStatement (page elemCountPerPage : Int)
    (filter : List (String × String)) : Statement :=
  { sql := selectSongs ++ filterCondition filter ++ "LIMIT $1 OFFSET $2;"
    args := [.int elemCountPerPage, .int (wrap64 (page * elemCountPerPage))] }

/-- The loop `for rows.Next()` of `GetSongsPage`, with the page collected so
far. -/
def scanRows : List (Except GoError SongDetailed) → List SongDetailed →
    Except GoError (List SongDetailed)
  | [], sdPage => .ok sdPage
  | .error e :: _, _ => .error e
  | .ok sd :: rest, sdPage => scanRows rest (sdPage ++ [sd])

/-- A run of `GetSongsPage`: the statements sent to the pool and the outcome;
`.error e` is the Go result `(nil, e)` and `.ok p` is `(p, nil)`. -/
structure PageRun where
  calls : List Statement
  result : Exec (Except GoError (List SongDetailed))

/-- The method `Manager.GetSongsPage`; `poolQuery` is `m.pool.Query`. -/
def GetSongsPage (maxCap : Int) (poolQuery : Statement → QueryResult)
    (page elemCountPerPage : Int) (filter : List (String × String)) :
    PageRun :=
  if makesliceOk maxCap elemCountPerPage = false then
    ⟨[], .panic "makeslice: cap out of range"⟩
  else if filter.length ≠ 0 ∧ Contains (filterCondition filter) ";" = true then
    ⟨[], .done (.error .ErrBadFilterParams)⟩
  else
    let st := pageStatement page elemCountPerPage filter
    match poolQuery st with
    | .error e =>
      if e = .pgxErrNoRows then ⟨[st], .done (.error .ErrNoRows)⟩
      else ⟨[st], .done (.error e)⟩
    | .rows rs => ⟨[st], .done (scanRows rs [])⟩

/-- The method `Manager.GetSong`; `queryRowScan` is `m.pool.QueryRow` followed
by `row.Scan` into the fields of the record. -/
def GetSong (queryRowScan : Statement → Except GoError SongDetailed)
    (s : Song) : Option SongDetailed × Option GoError :=
  match queryRowScan
    { sql := "SELECT name, group, release_date, lyrics, link FROM songs\n\t\t\t\t\t\t LEFT JOIN groups ON songs.group = groups.id\n\t\t\t\t\t\t WHERE name = $1 AND groups = $2;"
      args := [.str s.Name, .str s.Group] } with
  | .error e =>
    if e = .pgxErrNoRows then (none, some .ErrNoRows) else (none, some e)
  | .ok sd => (some sd, none)

/-- The statement of `DeleteSong`. -/
def deleteStatement (s : Song) : Statement :=
  { sql := "DELETE FROM songs WHERE name = $1, groups = (SELECT id FROM groups WHERE groups.name = $2 LIMIT 1);"
    args := [.str s.Name, .str s.Group] }

/-- The method `Manager.DeleteSong`; `poolExec` is `m.pool.Exec`, whose
command tag the method drops. -/
def DeleteSong (poolExec : Statement → CommandTag × Option GoError)
    (s : Song) : Option GoError :=
  let (_, err) := poolExec (deleteStatement s)
  if err = some .pgxErrNoRows then some .ErrNoRows else err

/-- The statement of `UpdateSongData`. -/
def updateStatement (newData : SongDetailed) : Statement :=
  { sql := "UPDATE songs SET release_date = $1, lyrics = $2, link = $3 WHERE\n\t\t\t\t\t name = $4 AND group = (SELECT id FROM groups WHERE name = $5);"
    args := [.str newData.ReleaseDate, .str newData.Text, .str newData.Link,
      .str newData.Name, .str newData.Group] }

/-- The method `Manager.UpdateSongData`. -/
def UpdateSongData (poolExec : Statement → CommandTag × Option GoError)
    (newData : SongDetailed) : Option GoError :=
  let (_, err) := poolExec (updateStatement newData)
  if err = some .pgxErrNoRows then some .ErrNoRows else err

/-- An open transaction, as `CreateSong` uses it: the error each of its
operations returns (`none` is success). -/
structure Tx where
  Exec : Statement → Option GoError
  Commit : Option GoError
  Rollback : Option GoError

/-- A call `CreateSong` makes on the pool or on the transaction. -/
inductive TxCall where
  | Begin
  | Exec (st : Statement)
  | Commit
  | Rollback
deriving DecidableEq, Repr

/-- A run of `CreateSong`: its calls, in order, and its outcome. -/
structure TxRun where
  calls : List TxCall
  result : Exec (Option GoError)
deriving DecidableEq, Repr

/-- The group upsert of `CreateSong`. -/
def groupUpsert (s : SongDetailed) : Statement :=
  { sql := "INSERT INTO groups (name) VALUES ($1) ON CONFLICT (name) DO NOTHING;"
    args := [.str s.Group] }

/-- The song insert of `CreateSong`. -/
def songInsert (s : SongDetailed) : Statement :=
  { sql := "INSERT INTO songs (name, group, release_date, lyrics, link) VALUES ($1, (SELECT id FROM groups WHERE groups.name = $2) , $3, $4, $5);"
    args := [.str s.Name, .str s.Group, .str s.ReleaseDate, .str s.Text,
      .str s.Link] }

/-- The block `if rbErr := tx.Rollback(ctx); rbErr != nil { return errors.New(
"tx error: " + err.Error() + " rollback error: " + rbErr.Error()) }; return err`
that follows each failed step. -/
def rollbackAfter (tx : Tx) (err : GoError) : Option GoError :=
  match tx.Rollback with
  | some rbErr =>
    some (.errorString
      ("tx error: " ++ err.Error ++ " rollback error: " ++ rbErr.Error))
  | none => some err

/-- The method `Manager.CreateSong`; `begin` is the pair `m.pool.Begin`
returns (a transaction that may be nil, an error). -/
def CreateSong (begin : Option Tx × Option GoError) (s : SongDetailed) :
    TxRun :=
  match begin with
  | (none, some _) => ⟨[.Begin], .panic "nil pointer dereference"⟩
  | (some tx, some err) => ⟨[.Begin, .Rollback], .done (rollbackAfter tx err)⟩
  | (none, none) => ⟨[.Begin], .panic "nil pointer dereference"⟩
  | (some tx, none) =>
    match tx.Exec (groupUpsert s) with
    | some err =>
      ⟨[.Begin, .Exec (groupUpsert s), .Rollback],
        .done (rollbackAfter tx err)⟩
    | none =>
      match tx.Exec (songInsert s) with
      | some err =>
        ⟨[.Begin, .Exec (groupUpsert s), .Exec (songInsert s), .Rollback],
          .done (rollbackAfter tx err)⟩
      | none =>
        match tx.Commit with
        | some err =>
          ⟨[.Begin, .Exec (groupUpsert s), .Exec (songInsert s), .Commit,
              .Rollback],
            .done (rollbackAfter tx err)⟩
        | none =>
          ⟨[.Begin, .Exec (groupUpsert s), .Exec (songInsert s), .Commit],
            .done none⟩

/-- A relational backend that holds the rows `stored` in a fixed order and
answers the unfiltered page query the way SQL defines `LIMIT` and `OFFSET`:
the rows from position `OFFSET` on, at most `LIMIT` of them; a negative
`LIMIT` or `OFFSET` is an error. -/
def pagedBackend (stored : List SongDetailed) (st : Statement) : QueryResult :=
  if st.sql = selectSongs ++ " LIMIT $1 OFFSET $2;" then
    match st.args with
    | [.int lim, .int off] =>
      if lim < 0 then .error (.errorString "LIMIT must not be negative")
      else if off < 0 then .error (.errorString "OFFSET must not be negative")
      else .rows (((stored.drop off.toNat).take lim.toNat).map .ok)
    | _ => .error (.errorString "wrong number of parameters")
  else .error (.errorString "syntax error")

/-! ## internal/musicInfo -/

/-- What `m.cli.Do(req)` gives back: a transport error, or a response with
its status code and with what `json.NewDecoder(resp.Body).Decode(&sd)` makes
of its body (an error, or the decoded record). -/
inductive HttpResult where
  | error (e : GoError)
  | response (StatusCode : Nat) (decoded : Except GoError SongDetailed)

/-- The method `MIManager.GetSongDetails`; `newRequestErr` is the error of
`http.NewRequest` and `Do` sends the request built for the song. -/
def GetSongDetails (newRequestErr : Option GoError) (Do : Song → HttpResult)
    (s : Song) : Option SongDetailed × Option GoError :=
  match newRequestErr with
  | some err =>
    (none, errorsJoin [some (.errorString "internal error"), some err])
  | none =>
    match Do s with
    | .error err =>
      (none,
        errorsJoin [some (.errorString "remote api request error: "), some err])
    | .response StatusCode decoded =>
      if StatusCode = 200 then
        match decoded with
        | .error err =>
          (none,
            errorsJoin [some (.errorString "unmarshalling error: "), some err])
        | .ok sd => (some { sd with toSong := s }, none)
      else if StatusCode = 500 then
        (none,
          errorsJoin [some (.errorString "remote api internal error: "), none])
      else if StatusCode = 400 then
        (none,
          errorsJoin [some (.errorString "bad request to remote api: "), none])
      else (some SongDetailed.zero, none)

/-! ## internal/api: `AddNewSong` and `PaginationMiddleware` -/

/-- What `AddNewSong` does, in order: calls on its two collaborators (with the
argument passed) and status codes written. -/
inductive ApiCall where
  | GetSongDetails (s : Song)
  | CreateSong (sd : Option SongDetailed)
  | WriteHeader (code : Nat)
deriving DecidableEq, Repr

/-- The handler `SongsLibAPI.AddNewSong`; `readErr` is the error of
`buf.Read(req)`, `decoded` what `json.NewDecoder(body).Decode(&s)` makes of the
body, `minfoGetSongDetails` is `api.minfo.GetSongDetails` and `lmCreateSong`
is `api.lm.CreateSong`. -/
def AddNewSong (readErr : Option GoError) (decoded : Except GoError Song)
    (minfoGetSongDetails : Song → Option SongDetailed × Option GoError)
    (lmCreateSong : Option SongDetailed → Option GoError) : List ApiCall :=
  match readErr with
  | some _ => [.WriteHeader 500]
  | none =>
    match decoded with
    | .error _ => [.WriteHeader 400]
    | .ok s =>
      match minfoGetSongDetails s with
      | (_, some _) => [.GetSongDetails s, .WriteHeader 500]
      | (sd, none) =>
        match lmCreateSong sd with
        | some _ => [.GetSongDetails s, .CreateSong sd, .WriteHeader 500]
        | none => [.GetSongDetails s, .CreateSong sd, .WriteHeader 200]

/-- Value of one decimal digit, as `strconv.Atoi` reads it. -/
def digitVal (c : Char) : Option Nat :=
  if '0' ≤ c ∧ c ≤ '9' then some (c.toNat - '0'.toNat) else none

/-- Value of a run of decimal digits, `n` being the value read so far. -/
def parseDigits : List Char → Nat → Option Nat
  | [], n => some n
  | c :: cs, n =>
    match digitVal c with
    | none => none
    | some d => parseDigits cs (n * 10 + d)

/-- Go's `strconv.Atoi` on a 64-bit platform: an optional sign and one or more
decimal digits, whose value fits the `int` range; `none` stands for the error
result. -/
def Atoi (s : String) : Option Int :=
  match s.data with
  | [] => none
  | c :: cs =>
    let digits := if c = '-' ∨ c = '+' then cs else c :: cs
    if digits = [] then none
    else
      match parseDigits digits 0 with
      | none => none
      | some n =>
        let v : Int := if c = '-' then -(n : Int) else (n : Int)
        if -(2 : Int) ^ 63 ≤ v ∧ v < (2 : Int) ^ 63 then some v else none

/-- Go's `url.Values.Get`: the first value of the key, or the empty string. -/
def queryGet (query : List (String × String)) (key : String) : String :=
  match query.find? (fun kv => kv.1 = key) with
  | some kv => kv.2
  | none => ""

/-- What `PaginationMiddleware` does with a request: it answers with a status
code itself, or it calls `h.ServeHTTP` with `page` and `limit` in the request
context. -/
inductive MiddlewareRun where
  | respond (code : Nat)
  | next (page limit : Int)
deriving DecidableEq, Repr

/-- The handler `PaginationMiddleware` wraps around `h`; `query` is
`r.URL.Query()`. -/
def PaginationMiddleware (query : List (String × String)) : MiddlewareRun :=
  let page := queryGet query "page"
  let pageCtx : Option Int := if page = "" then some 0 else Atoi page
  match pageCtx with
  | none => .respond 400
  | some pageInt =>
    let limit := queryGet query "limit"
    if limit = "" then .respond 400
    else
      match Atoi limit with
      | none => .respond 400
      | some limitInt => .next pageInt limitInt

/-! ## Sample data -/

/-- A transaction whose song insert fails and whose rollback fails too. -/
def failingTx : Tx where
  Exec := fun st =>
    if st.sql = "INSERT INTO groups (name) VALUES ($1) ON CONFLICT (name) DO NOTHING;"
    then none else some (.errorString "duplicate key")
  Commit := none
  Rollback := some (.errorString "conn closed")

/-- Sample record with the given name. -/
def sampleRow (name : String) : SongDetailed :=
  { Group := "g", Name := name, ReleaseDate := "", Text := "", Link := "" }

/-- Five sample rows held by the backend, in a fixed order. -/
def fiveRows : List SongDetailed :=
  [sampleRow "r0", sampleRow "r1", sampleRow "r2", sampleRow "r3",
    sampleRow "r4"]

/-! ## Supporting lemmas -/

theorem wrap64_of_inRange (x : Int) (hlo : -(2 : Int) ^ 63 ≤ x)
    (hhi : x < (2 : Int) ^ 63) : wrap64 x = x := by
  unfold wrap64
  norm_num at hlo hhi ⊢
  omega

theorem singleton_infix_iff_mem (c : Char) (l : List Char) :
    [c] <:+: l ↔ c ∈ l := by
  constructor
  · rintro ⟨s, t, rfl⟩
    simp
  · intro h
    obtain ⟨s, t, rfl⟩ := List.append_of_mem h
    exact ⟨s, t, by simp⟩

theorem Contains_semicolon_iff (s : String) :
    Contains s ";" = true ↔ ';' ∈ s.data := by
  unfold Contains
  rw [decide_eq_true_iff]
  exact singleton_infix_iff_mem ';' s.data

theorem filterStep_data (acc : String) (kv : String × String) :
    (filterStep acc kv).data =
      acc.data ++ (kv.1.data ++ '=' :: kv.2.data) ++ [' ', 'A', 'N', 'D'] := by
  simp [filterStep]

/-- The accumulator of the filter loop only grows. -/
theorem foldl_filterStep_grows (l : List (String × String)) (acc : String) :
    acc.data <+: (l.foldl filterStep acc).data := by
  induction l generalizing acc with
  | nil => exact List.prefix_refl _
  | cons kv rest ih =>
    refine List.IsPrefix.trans ?_ (ih (filterStep acc kv))
    rw [filterStep_data, List.append_assoc]
    exact List.prefix_append _ _

/-- Every entry of the filter leaves its term `key=value` in the accumulator
of the loop. -/
theorem foldl_filterStep_term (l : List (String × String)) (acc : String)
    (kv : String × String) (hkv : kv ∈ l) :
    (kv.1.data ++ '=' :: kv.2.data) <:+: (l.foldl filterStep acc).data := by
  induction l generalizing acc with
  | nil => cases hkv
  | cons hd rest ih =>
    rcases List.mem_cons.mp hkv with rfl | hrest
    · refine List.IsInfix.trans ?_
        (foldl_filterStep_grows rest (filterStep acc kv)).isInfix
      rw [filterStep_data]
      exact ⟨acc.data, [' ', 'A', 'N', 'D'], rfl⟩
    · exact ih (filterStep acc hd) hrest

/-- The condition built from a filter whose last entry is `last`: the
accumulator after the entries before it, the term of `last` and one blank
(what `TrimSuffix` leaves of the closing ` AND`). -/
theorem filterCondition_concat (init : List (String × String))
    (last : String × String) :
    (filterCondition (init ++ [last])).data =
      (init.foldl filterStep (" " ++ "WHERE ")).data ++
        (last.1.data ++ '=' :: last.2.data) ++ [' '] := by
  have hraw : ((init ++ [last]).foldl filterStep (" " ++ "WHERE ")).data =
      ((init.foldl filterStep (" " ++ "WHERE ")).data ++
        (last.1.data ++ '=' :: last.2.data) ++ [' ']) ++ ['A', 'N', 'D'] := by
    rw [List.foldl_append, List.foldl_cons, List.foldl_nil, filterStep_data]
    simp
  have hsuf : ("AND" : String).data.isSuffixOf
      ((init ++ [last]).foldl filterStep (" " ++ "WHERE ")).data = true := by
    rw [List.isSuffixOf_iff_suffix, hraw]
    exact List.suffix_append _ _
  unfold filterCondition
  rw [if_pos (by simp), TrimSuffix, if_pos hsuf, hraw]
  have hlen : ("AND" : String).data.length = 3 := rfl
  rw [hlen]
  show List.take _ _ = _
  apply List.take_left'
  simp only [List.length_append, List.length_cons, List.length_nil]
  omega

/-- A `;` in a value of a non-empty filter is a `;` in the condition. -/
theorem filterCondition_semicolon (filter : List (String × String))
    (kv : String × String) (hkv : kv ∈ filter) (hsemi : ';' ∈ kv.2.data) :
    ';' ∈ (filterCondition filter).data := by
  rcases List.eq_nil_or_concat filter with rfl | ⟨init, last, rfl⟩
  · cases hkv
  · rw [List.concat_eq_append] at hkv ⊢
    rw [filterCondition_concat]
    rcases List.mem_append.mp hkv with hinit | hlast
    · have hterm := foldl_filterStep_term init (" " ++ "WHERE ") kv hinit
      have : ';' ∈ (init.foldl filterStep (" " ++ "WHERE ")).data :=
        hterm.subset (by simp [hsemi])
      exact List.mem_append_left _ (List.mem_append_left _ this)
    · rw [List.mem_singleton] at hlast
      subst hlast
      simp [hsemi]

/-! ## Theorems -/

/-- C1, evaluated at the failing input: for the lyrics text `"a\nb\nc\nd"`
with limit 2, `ReadSongLyricsPage` selects `["a","b"]` for page 0 but the
empty list for page 1, while the slice `[2, 4)` of the couplets is
`["c","d"]`; the body the handler encodes for page 1 carries the empty
list. -/
theorem ReadSongLyricsPage_second_page_empty :
    lyricsPage "a\nb\nc\nd" 0 2 = .done ["a", "b"] ∧
    lyricsPage "a\nb\nc\nd" 1 2 = .done [] ∧
    lyricsPage "a\nb\nc\nd" 2 2 = .done [] ∧
    ((Split "a\nb\nc\nd" '\n').drop (1 * 2)).take 2 = ["c", "d"] ∧
    (ReadSongLyricsPage
      (fun s => (some { s with ReleaseDate := "", Text := "a\nb\nc\nd",
                               Link := "" }, none))
      (fun _ => none) [("song_name", "n"), ("group_name", "g")] 1 2).lyricsText
      = some [] := by
  decide

/-- Every page after the first is empty: the loop of `ReadSongLyricsPage`
starts at `page * limit` and stops as soon as `i < limit` fails. -/
theorem lyricsPage_later_pages_empty (text : String) (page limit : Int)
    (hpage : 1 ≤ page) (hlimit : 0 < limit)
    (hfit : page * limit < (2 : Int) ^ 63) :
    lyricsPage text page limit = .done [] := by
  have hle : limit ≤ page * limit := by nlinarith
  have hw : wrap64 (page * limit) = page * limit :=
    wrap64_of_inRange _ (by norm_num; nlinarith) hfit
  unfold lyricsPage
  simp only [hw, lyricsLoop]
  rw [if_neg]
  omega

/-- C2, counterexample: for the filter `name=a;` with limit -1, and with a
limit of 2^45 + 1 above the capacity bound 2^45, `GetSongsPage` panics in
`make` before it looks at the filter, so it does not return
`ErrBadFilterParams`; in both runs no statement is sent. -/
theorem GetSongsPage_semicolon_negative_limit_panics :
    (GetSongsPage (2 ^ 45) (pagedBackend []) 0 (-1) [("name", "a;")]).result =
      .panic "makeslice: cap out of range" ∧
    (GetSongsPage (2 ^ 45) (pagedBackend []) 0 (-1) [("name", "a;")]).calls =
      [] ∧
    (GetSongsPage (2 ^ 45) (pagedBackend []) 0 (2 ^ 45 + 1)
        [("name", "a;")]).result = .panic "makeslice: cap out of range" ∧
    (GetSongsPage (2 ^ 45) (pagedBackend []) 0 (2 ^ 45 + 1)
        [("name", "a;")]).calls = [] := by
  refine ⟨by rfl, by rfl, by rfl, by rfl⟩

/-- C2, amended: for every filter in which some value contains `;` (whatever
its field), `GetSongsPage` sends no statement to the backend, and, for every
limit the result slice can be allocated for (0 <= limit <= capacity bound),
it returns `ErrBadFilterParams` with no result. -/
theorem GetSongsPage_semicolon_rejected (maxCap : Int)
    (poolQuery : Statement → QueryResult) (page limit : Int)
    (filter : List (String × String))
    (hsemi : ∃ kv ∈ filter, ';' ∈ kv.2.data) :
    (GetSongsPage maxCap poolQuery page limit filter).calls = [] ∧
    (0 ≤ limit ∧ limit ≤ maxCap →
      (GetSongsPage maxCap poolQuery page limit filter).result =
        .done (.error .ErrBadFilterParams)) := by
  obtain ⟨kv, hkv, hin⟩ := hsemi
  have hne : filter.length ≠ 0 := by
    intro h
    rw [List.length_eq_zero] at h
    subst h
    cases hkv
  have hcont : Contains (filterCondition filter) ";" = true :=
    (Contains_semicolon_iff _).mpr (filterCondition_semicolon filter kv hkv hin)
  unfold GetSongsPage
  by_cases hmk : makesliceOk maxCap limit = false
  · rw [if_pos hmk]
    refine ⟨rfl, fun hcap => ?_⟩
    simp [makesliceOk, hcap] at hmk
  · rw [if_neg hmk, if_pos ⟨hne, hcont⟩]
    exact ⟨rfl, fun _ => rfl⟩

/-- C2, amended, at a two-entry filter whose second value carries a `;`. -/
theorem GetSongsPage_semicolon_rejected_witness :
    (GetSongsPage (2 ^ 45) (pagedBackend []) 0 10
        [("name", "a"), ("group", "x; DROP TABLE songs")]).calls = [] ∧
    (GetSongsPage (2 ^ 45) (pagedBackend []) 0 10
        [("name", "a"), ("group", "x; DROP TABLE songs")]).result =
      .done (.error .ErrBadFilterParams) :=
  ⟨(GetSongsPage_semicolon_rejected (2 ^ 45) (pagedBackend []) 0 10
      [("name", "a"), ("group", "x; DROP TABLE songs")]
      ⟨("group", "x; DROP TABLE songs"), by decide, by decide⟩).1,
    (GetSongsPage_semicolon_rejected (2 ^ 45) (pagedBackend []) 0 10
      [("name", "a"), ("group", "x; DROP TABLE songs")]
      ⟨("group", "x; DROP TABLE songs"), by decide, by decide⟩).2
      (by decide)⟩

/-- Every entry of a filter has its term `key=value` in the condition. -/
theorem filterCondition_term (filter : List (String × String))
    (kv : String × String) (hkv : kv ∈ filter) :
    (kv.1.data ++ '=' :: kv.2.data) <:+: (filterCondition filter).data := by
  rcases List.eq_nil_or_concat filter with rfl | ⟨init, last, rfl⟩
  · cases hkv
  · rw [List.concat_eq_append] at hkv ⊢
    rw [filterCondition_concat]
    rcases List.mem_append.mp hkv with hinit | hlast
    · have hterm := foldl_filterStep_term init (" " ++ "WHERE ") kv hinit
      refine List.IsInfix.trans hterm ?_
      rw [List.append_assoc]
      exact (List.prefix_append _ _).isInfix
    · rw [List.mem_singleton] at hlast
      subst hlast
      exact ⟨_, [' '], rfl⟩

/-- Where the characters of the loop accumulator come from: the start value,
a key, a value, or the glue `=` and ` AND`. -/
theorem foldl_filterStep_chars (l : List (String × String)) (acc : String)
    (c : Char) (hc : c ∈ (l.foldl filterStep acc).data) :
    c ∈ acc.data ∨ (∃ kv ∈ l, c ∈ kv.1.data ∨ c ∈ kv.2.data) ∨
      c ∈ ['=', ' ', 'A', 'N', 'D'] := by
  induction l generalizing acc with
  | nil => exact Or.inl hc
  | cons hd rest ih =>
    rcases ih (filterStep acc hd) hc with h | ⟨kv, hkv, h⟩ | h
    · rw [filterStep_data] at h
      simp only [List.mem_append, List.mem_cons] at h
      rcases h with (h | h | h | h) | h
      · exact Or.inl h
      · exact Or.inr (Or.inl ⟨hd, List.mem_cons_self _ _, Or.inl h⟩)
      · subst h
        exact Or.inr (Or.inr (by simp))
      · exact Or.inr (Or.inl ⟨hd, List.mem_cons_self _ _, Or.inr h⟩)
      · exact Or.inr (Or.inr (by simp at h ⊢; tauto))
    · exact Or.inr (Or.inl ⟨kv, List.mem_cons_of_mem _ hkv, h⟩)
    · exact Or.inr (Or.inr h)

/-- A filter without `;` in its keys and values passes the check of
`GetSongsPage`. -/
theorem filterCondition_no_semicolon (filter : List (String × String))
    (hno : ∀ kv ∈ filter, ';' ∉ kv.1.data ∧ ';' ∉ kv.2.data) :
    ';' ∉ (filterCondition filter).data := by
  rcases List.eq_nil_or_concat filter with rfl | ⟨init, last, rfl⟩
  · decide
  · rw [List.concat_eq_append] at hno ⊢
    rw [filterCondition_concat]
    intro hc
    simp only [List.mem_append, List.mem_cons, List.mem_singleton] at hc
    have hlast := hno last (by simp)
    rcases hc with (hc | hc | hc | hc) | hc
    · rcases foldl_filterStep_chars init _ _ hc with h | ⟨kv, hkv, h⟩ | h
      · revert h
        decide
      · have := hno kv (List.mem_append_left _ hkv)
        tauto
      · revert h
        decide
    · exact hlast.1 hc
    · revert hc
      decide
    · exact hlast.2 hc
    · revert hc
      simp

/-- C3, evaluated at the failing input: the filters `name=a` and `name=b`
have the same field and values without `;`, yet the SQL texts `GetSongsPage`
sends for them differ while the arguments bound to the two statements are the
same; and the value `1 OR 1=1` passes the `;` check and reaches the backend
inside the statement text, `WHERE name=1 OR 1=1`, the bound arguments being
the limit and the offset only. -/
theorem GetSongsPage_sql_depends_on_values :
    (GetSongsPage (2 ^ 45) (pagedBackend []) 0 1 [("name", "a")]).calls.map
        Statement.sql ≠
      (GetSongsPage (2 ^ 45) (pagedBackend []) 0 1 [("name", "b")]).calls.map
        Statement.sql ∧
    (GetSongsPage (2 ^ 45) (pagedBackend []) 0 1 [("name", "a")]).calls.map
        Statement.args =
      (GetSongsPage (2 ^ 45) (pagedBackend []) 0 1 [("name", "b")]).calls.map
        Statement.args ∧
    (GetSongsPage (2 ^ 45) (pagedBackend []) 0 1
        [("name", "1 OR 1=1")]).calls =
      [{ sql := "SELECT name, group, release_date, lyrics, link FROM songs\n\tLEFT JOIN groups ON songs.group = groups.id WHERE name=1 OR 1=1 LIMIT $1 OFFSET $2;"
         args := [.int 1, .int 0] }] := by
  decide

/-- How `GetSongsPage` uses a filter that passes its check: it writes the
filter into the query text.  For every filter without `;` in its keys and values, and every limit the result
slice can be allocated for, it sends exactly one statement; the arguments
bound to it are the limit and the offset and nothing else, and the text of
the statement contains the term `key=value` of every entry of the filter. -/
theorem GetSongsPage_values_in_sql_text (maxCap : Int)
    (poolQuery : Statement → QueryResult) (page limit : Int)
    (filter : List (String × String))
    (hcap : 0 ≤ limit ∧ limit ≤ maxCap)
    (hno : ∀ kv ∈ filter, ';' ∉ kv.1.data ∧ ';' ∉ kv.2.data) :
    ∃ st, (GetSongsPage maxCap poolQuery page limit filter).calls = [st] ∧
      st.args = [.int limit, .int (wrap64 (page * limit))] ∧
      ∀ kv ∈ filter, (kv.1 ++ "=" ++ kv.2).data <:+: st.sql.data := by
  have hmk : makesliceOk maxCap limit = true := by
    simp [makesliceOk, hcap]
  have hcont : ¬ (filter.length ≠ 0 ∧
      Contains (filterCondition filter) ";" = true) := by
    rintro ⟨-, h⟩
    exact filterCondition_no_semicolon filter hno
      ((Contains_semicolon_iff _).mp h)
  refine ⟨pageStatement page limit filter, ?_, rfl, ?_⟩
  · unfold GetSongsPage
    rw [if_neg (by simp [hmk]), if_neg hcont]
    dsimp only
    split
    · split <;> rfl
    · rfl
  · intro kv hkv
    have hterm := filterCondition_term filter kv hkv
    have hsql : (pageStatement page limit filter).sql.data =
        selectSongs.data ++ (filterCondition filter).data ++
          ("LIMIT $1 OFFSET $2;" : String).data := by
      simp [pageStatement]
    rw [hsql]
    have hdata : (kv.1 ++ "=" ++ kv.2).data = kv.1.data ++ '=' :: kv.2.data := by
      simp
    rw [hdata]
    obtain ⟨s, t, hst⟩ := hterm
    refine ⟨selectSongs.data ++ s,
      t ++ ("LIMIT $1 OFFSET $2;" : String).data, ?_⟩
    rw [← hst]
    simp

/-- The statement sent for the filter `name=a`, `group=b` with page 3 and
limit 10. -/
theorem GetSongsPage_values_in_sql_text_witness :
    ∃ st, (GetSongsPage (2 ^ 45) (pagedBackend []) 3 10
        [("name", "a"), ("group", "b")]).calls = [st] ∧
      st.args = [.int 10, .int (wrap64 (3 * 10))] ∧
      ∀ kv ∈ [(("name" : String), ("a" : String)), ("group", "b")],
        (kv.1 ++ "=" ++ kv.2).data <:+: st.sql.data :=
  GetSongsPage_values_in_sql_text (2 ^ 45) (pagedBackend []) 3 10
    [("name", "a"), ("group", "b")] (by decide) (by decide)

/-- C4, evaluated at the failing input: for the two-entry filter `name=a`,
`group=b` the statement `GetSongsPage` sends reads `name=a ANDgroup=b`, the
`AND` glued to the term after it; a one-entry filter gives `WHERE name=a`
followed by a blank, and the empty filter gives no `WHERE` clause. -/
theorem GetSongsPage_AND_glued_to_next_term :
    (GetSongsPage (2 ^ 45) (pagedBackend []) 0 10
        [("name", "a"), ("group", "b")]).calls =
      [{ sql := "SELECT name, group, release_date, lyrics, link FROM songs\n\tLEFT JOIN groups ON songs.group = groups.id WHERE name=a ANDgroup=b LIMIT $1 OFFSET $2;"
         args := [.int 10, .int 0] }] ∧
    (GetSongsPage (2 ^ 45) (pagedBackend []) 0 10 [("name", "a")]).calls =
      [{ sql := "SELECT name, group, release_date, lyrics, link FROM songs\n\tLEFT JOIN groups ON songs.group = groups.id WHERE name=a LIMIT $1 OFFSET $2;"
         args := [.int 10, .int 0] }] ∧
    (GetSongsPage (2 ^ 45) (pagedBackend []) 0 10 []).calls =
      [{ sql := "SELECT name, group, release_date, lyrics, link FROM songs\n\tLEFT JOIN groups ON songs.group = groups.id LIMIT $1 OFFSET $2;"
         args := [.int 10, .int 0] }] := by
  decide

/-- The condition of a two-entry filter, whatever its keys and values: no
blank stands between the first `AND` and the second term. -/
theorem filterCondition_pair (k₁ v₁ k₂ v₂ : String) :
    filterCondition [(k₁, v₁), (k₂, v₂)] =
      " WHERE " ++ k₁ ++ "=" ++ v₁ ++ " AND" ++ k₂ ++ "=" ++ v₂ ++ " " := by
  apply String.ext
  have h := filterCondition_concat [(k₁, v₁)] (k₂, v₂)
  simp only [List.singleton_append] at h
  rw [h]
  simp [filterStep]

/-- C5, evaluated at the failing input: when the backend executes the
statement without error and reports zero affected rows, `DeleteSong` and
`UpdateSongData` both return nil (success), not `ErrNoRows`. -/
theorem DeleteSong_zero_rows_is_success (s : Song) (newData : SongDetailed) :
    DeleteSong (fun _ => ({ RowsAffected := 0 }, none)) s = none ∧
    UpdateSongData (fun _ => ({ RowsAffected := 0 }, none)) newData = none := by
  exact ⟨rfl, rfl⟩

/-- Neither method looks at the command tag: its result is the error of
`Exec`, with `pgx.ErrNoRows` renamed to `ErrNoRows`. -/
theorem DeleteSong_ignores_command_tag
    (poolExec : Statement → CommandTag × Option GoError) (s : Song) :
    DeleteSong poolExec s =
      if (poolExec (deleteStatement s)).2 = some .pgxErrNoRows
      then some .ErrNoRows else (poolExec (deleteStatement s)).2 := by
  rfl

/-- With fuel for every couplet left, the loop of `ReadSongLyricsPage` run
from a position `i >= 0` returns: it appends the couplets from `i` up to
`limit` (or up to the end of the list). -/
theorem lyricsLoop_done (couplets : List String) (limit : Int) :
    ∀ (fuel i : Nat) (result : List String), couplets.length - i < fuel →
      lyricsLoop couplets limit fuel (i : Int) result =
        .done (result ++ (couplets.drop i).take (limit - i).toNat) := by
  intro fuel
  induction fuel with
  | zero => intro i result h; omega
  | succ fuel ih =>
    intro i result h
    unfold lyricsLoop
    by_cases hc : (i : Int) < couplets.length ∧ (i : Int) < limit
    · obtain ⟨hlen, hlim⟩ := hc
      have hlen' : i < couplets.length := by exact_mod_cast hlen
      rw [if_pos ⟨hlen, hlim⟩, if_neg (by omega)]
      have hnext := ih (i + 1) (result ++ [couplets.getD (i : Int).toNat ""])
        (by omega)
      rw [Nat.cast_add, Nat.cast_one] at hnext
      rw [hnext]
      have htoNat : (limit - (i : Int)).toNat =
          (limit - ((i : Int) + 1)).toNat + 1 := by omega
      have hget : couplets.getD (i : Int).toNat "" = couplets[i] := by
        simp [List.getD, List.getElem?_eq_getElem hlen']
      rw [htoNat, List.drop_eq_getElem_cons hlen', List.take_succ_cons, hget]
      simp
    · rw [if_neg hc]
      have hnil : (couplets.drop i).take (limit - (i : Int)).toNat = [] := by
        by_cases hlen : (i : Int) < couplets.length
        · have : (limit - (i : Int)).toNat = 0 := by
            have : ¬ (i : Int) < limit := fun h => hc ⟨hlen, h⟩
            omega
          rw [this, List.take_zero]
        · have : couplets.length ≤ i := by
            have := Int.not_lt.mp hlen
            exact_mod_cast this
          rw [List.drop_eq_nil_of_le this, List.take_nil]
      rw [hnil, List.append_nil]

/-- The fuel `lyricsPage` gives its loop is enough: the selection returns or
panics, whatever the text, the page and the limit. -/
theorem lyricsPage_fuel_enough (text : String) (page limit : Int) :
    lyricsPage text page limit ≠ .outOfFuel := by
  unfold lyricsPage
  by_cases hneg : wrap64 (page * limit) < 0
  · unfold lyricsLoop
    split_ifs <;> simp
  · obtain ⟨i, hi⟩ := Int.eq_ofNat_of_zero_le (Int.not_lt.mp hneg)
    rw [hi, lyricsLoop_done _ limit _ i [] (by omega)]
    simp

/-- Page 0 of `ReadSongLyricsPage` holds the first `limit` couplets. -/
theorem lyricsPage_first_page (text : String) (limit : Int) :
    lyricsPage text 0 limit = .done ((Split text '\n').take limit.toNat) := by
  unfold lyricsPage
  have hw : wrap64 (0 * limit) = ((0 : Nat) : Int) := by
    rw [zero_mul]
    rfl
  simp only [hw]
  rw [lyricsLoop_done _ limit _ 0 [] (by omega)]
  simp

/-- `errors.Join` of a non-nil first error is not nil. -/
theorem errorsJoin_ne_none (e : GoError) (rest : List (Option GoError)) :
    errorsJoin (some e :: rest) ≠ none := by
  simp [errorsJoin, List.filterMap_cons]

/-- A failed lookup: `GetSongDetails` returns no record and a non-nil error
when the request cannot be sent or the remote status is 400 or 500. -/
theorem GetSongDetails_failure (newRequestErr : Option GoError)
    (Do : Song → HttpResult) (s : Song)
    (hfail : (∃ e, Do s = .error e) ∨ (∃ body, Do s = .response 400 body) ∨
      (∃ body, Do s = .response 500 body)) :
    ∃ err, GetSongDetails newRequestErr Do s = (none, some err) := by
  unfold GetSongDetails
  cases newRequestErr with
  | some e0 =>
    obtain ⟨err, herr⟩ := Option.ne_none_iff_exists'.mp
      (errorsJoin_ne_none (.errorString "internal error") [some e0])
    exact ⟨err, by simp [herr]⟩
  | none =>
    rcases hfail with ⟨e, he⟩ | ⟨body, hb⟩ | ⟨body, hb⟩
    · obtain ⟨err, herr⟩ := Option.ne_none_iff_exists'.mp
        (errorsJoin_ne_none (.errorString "remote api request error: ") [some e])
      exact ⟨err, by simp [he, herr]⟩
    · obtain ⟨err, herr⟩ := Option.ne_none_iff_exists'.mp
        (errorsJoin_ne_none (.errorString "bad request to remote api: ") [none])
      exact ⟨err, by simp [hb, herr]⟩
    · obtain ⟨err, herr⟩ := Option.ne_none_iff_exists'.mp
        (errorsJoin_ne_none (.errorString "remote api internal error: ") [none])
      exact ⟨err, by simp [hb, herr]⟩

/-- C6: for every add-song request whose body was read and decoded to a song
`s`, if the metadata lookup ends in a transport failure, a remote 400 or a
remote 500, `AddNewSong` does exactly two things, the lookup and writing
status 500, so `CreateSong` is never called; and for every request, whenever
`CreateSong` is called with a record, `GetSongDetails` was called first and
returned that record with a nil error. -/
theorem AddNewSong_creates_only_after_lookup (readErr : Option GoError)
    (decoded : Except GoError Song) (newRequestErr : Option GoError)
    (Do : Song → HttpResult)
    (lmCreateSong : Option SongDetailed → Option GoError) :
    (∀ s, readErr = none → decoded = .ok s →
      ((∃ e, Do s = .error e) ∨ (∃ body, Do s = .response 400 body) ∨
        (∃ body, Do s = .response 500 body)) →
      AddNewSong readErr decoded (GetSongDetails newRequestErr Do) lmCreateSong
        = [.GetSongDetails s, .WriteHeader 500]) ∧
    (∀ sd, .CreateSong sd ∈
        AddNewSong readErr decoded (GetSongDetails newRequestErr Do)
          lmCreateSong →
      ∃ s, decoded = .ok s ∧
        GetSongDetails newRequestErr Do s = (sd, none) ∧
        (AddNewSong readErr decoded (GetSongDetails newRequestErr Do)
          lmCreateSong).take 2 = [.GetSongDetails s, .CreateSong sd]) := by
  constructor
  · intro s hread hdec hfail
    obtain ⟨err, herr⟩ := GetSongDetails_failure newRequestErr Do s hfail
    subst hread hdec
    simp [AddNewSong, herr]
  · intro sd hmem
    unfold AddNewSong at hmem ⊢
    cases readErr with
    | some e => simp at hmem
    | none =>
      cases decoded with
      | error e => simp at hmem
      | ok s =>
        refine ⟨s, rfl, ?_⟩
        rcases hres : GetSongDetails newRequestErr Do s with ⟨rec, _ | e⟩
        · simp only [hres] at hmem ⊢
          cases hcreate : lmCreateSong rec with
          | none =>
            simp only [hcreate] at hmem ⊢
            simp at hmem
            subst hmem
            simp
          | some e =>
            simp only [hcreate] at hmem ⊢
            simp at hmem
            subst hmem
            simp
        · simp [hres] at hmem

/-- C6 at a request for `Uprising` of `Muse`: with a remote 400 nothing is
created, and with a remote 200 the record created is the one looked up. -/
theorem AddNewSong_creates_only_after_lookup_witness :
    AddNewSong none (.ok { Group := "Muse", Name := "Uprising" })
        (GetSongDetails none
          (fun _ => HttpResult.response 400 (.ok SongDetailed.zero)))
        (fun _ => none)
      = [.GetSongDetails { Group := "Muse", Name := "Uprising" },
          .WriteHeader 500] ∧
    ∃ s, (Except.ok { Group := "Muse", Name := "Uprising" } :
          Except GoError Song) = .ok s ∧
      GetSongDetails none
          (fun _ => HttpResult.response 200 (.ok SongDetailed.zero)) s
        = (some { Group := "Muse", Name := "Uprising", ReleaseDate := "",
                  Text := "", Link := "" }, none) ∧
      (AddNewSong none (.ok { Group := "Muse", Name := "Uprising" })
          (GetSongDetails none
            (fun _ => HttpResult.response 200 (.ok SongDetailed.zero)))
          (fun _ => none)).take 2
        = [.GetSongDetails s,
            .CreateSong (some { Group := "Muse", Name := "Uprising",
                                ReleaseDate := "", Text := "", Link := "" })] :=
  ⟨(AddNewSong_creates_only_after_lookup none
      (.ok { Group := "Muse", Name := "Uprising" }) none
      (fun _ => HttpResult.response 400 (.ok SongDetailed.zero))
      (fun _ => none)).1 { Group := "Muse", Name := "Uprising" } rfl rfl
      (Or.inr (Or.inl ⟨_, rfl⟩)),
    (AddNewSong_creates_only_after_lookup none
      (.ok { Group := "Muse", Name := "Uprising" }) none
      (fun _ => HttpResult.response 200 (.ok SongDetailed.zero))
      (fun _ => none)).2
      (some { Group := "Muse", Name := "Uprising", ReleaseDate := "",
              Text := "", Link := "" }) (by decide)⟩

/-- C7, evaluated at the failing input: for a remote answer with status 404,
whatever its body, `GetSongDetails` returns the zero-value record and a nil
error, so for the song `Uprising` of `Muse` the returned record has an empty
name and an empty group. -/
theorem GetSongDetails_unhandled_status_zero_record (s : Song)
    (decoded : Except GoError SongDetailed) :
    GetSongDetails none (fun _ => .response 404 decoded) s =
      (some { Group := "", Name := "", ReleaseDate := "", Text := "",
              Link := "" }, none) ∧
    (GetSongDetails none (fun _ => .response 404 decoded)
        { Group := "Muse", Name := "Uprising" }).1.map (fun sd => sd.toSong) ≠
      some { Group := "Muse", Name := "Uprising" } := by
  constructor
  · rfl
  · intro h
    have hzero : GetSongDetails none (fun _ => .response 404 decoded)
        { Group := "Muse", Name := "Uprising" } =
        (some SongDetailed.zero, none) := rfl
    rw [hzero] at h
    revert h
    decide

/-- On status 200 with a body that decodes, the identity fields of the
returned record are those of the request, whatever the body carried. -/
theorem GetSongDetails_ok_matches_request (newRequestErr : Option GoError)
    (Do : Song → HttpResult) (s : Song) (body sd : SongDetailed)
    (hdo : Do s = .response 200 (.ok body))
    (hres : GetSongDetails newRequestErr Do s = (some sd, none)) :
    sd.Name = s.Name ∧ sd.Group = s.Group := by
  unfold GetSongDetails at hres
  cases newRequestErr with
  | some e0 =>
    simp at hres
  | none =>
    simp [hdo] at hres
    subst hres
    exact ⟨rfl, rfl⟩

/-- C8: on an open transaction, if the group upsert fails, `CreateSong` calls
begin, the upsert and rollback and nothing else (no song insert, no commit);
if the upsert succeeds and the song insert fails, it calls begin, the two
statements and rollback and nothing else (no commit).  In both cases it
returns the error of the failed statement when rollback succeeds, and an
error with the text `tx error: <statement error> rollback error: <rollback
error>` when rollback fails.  Whatever `Begin` returned, commit is called
only on an open transaction on which both statements succeeded. -/
theorem CreateSong_rolls_back_on_failure (tx : Tx) (s : SongDetailed) :
    (∀ err, tx.Exec (groupUpsert s) = some err →
      (CreateSong (some tx, none) s).calls =
        [.Begin, .Exec (groupUpsert s), .Rollback] ∧
      (tx.Rollback = none →
        (CreateSong (some tx, none) s).result = .done (some err)) ∧
      (∀ rbErr, tx.Rollback = some rbErr →
        (CreateSong (some tx, none) s).result =
          .done (some (.errorString
            ("tx error: " ++ err.Error ++ " rollback error: " ++
              rbErr.Error))))) ∧
    (∀ err, tx.Exec (groupUpsert s) = none →
      tx.Exec (songInsert s) = some err →
      (CreateSong (some tx, none) s).calls =
        [.Begin, .Exec (groupUpsert s), .Exec (songInsert s), .Rollback] ∧
      (tx.Rollback = none →
        (CreateSong (some tx, none) s).result = .done (some err)) ∧
      (∀ rbErr, tx.Rollback = some rbErr →
        (CreateSong (some tx, none) s).result =
          .done (some (.errorString
            ("tx error: " ++ err.Error ++ " rollback error: " ++
              rbErr.Error))))) ∧
    (∀ begin : Option Tx × Option GoError,
      .Commit ∈ (CreateSong begin s).calls →
      ∃ tx', begin = (some tx', none) ∧ tx'.Exec (groupUpsert s) = none ∧
        tx'.Exec (songInsert s) = none) := by
  refine ⟨?_, ?_, ?_⟩
  · intro err h1
    refine ⟨?_, ?_, ?_⟩
    · simp [CreateSong, h1]
    · intro hrb
      simp [CreateSong, h1, rollbackAfter, hrb]
    · intro rbErr hrb
      simp [CreateSong, h1, rollbackAfter, hrb]
  · intro err h1 h2
    refine ⟨?_, ?_, ?_⟩
    · simp [CreateSong, h1, h2]
    · intro hrb
      simp [CreateSong, h1, h2, rollbackAfter, hrb]
    · intro rbErr hrb
      simp [CreateSong, h1, h2, rollbackAfter, hrb]
  · rintro ⟨otx, oerr⟩ hmem
    cases otx with
    | none =>
      cases oerr <;> simp [CreateSong] at hmem
    | some tx' =>
      cases oerr with
      | some e => simp [CreateSong] at hmem
      | none =>
        refine ⟨tx', rfl, ?_⟩
        cases h1 : tx'.Exec (groupUpsert s) with
        | some e => simp [CreateSong, h1] at hmem
        | none =>
          cases h2 : tx'.Exec (songInsert s) with
          | some e => simp [CreateSong, h1, h2] at hmem
          | none => exact ⟨rfl, rfl⟩

/-- C8 on a transaction whose song insert and rollback both fail. -/
theorem CreateSong_rolls_back_on_failure_witness :
    (CreateSong (some failingTx, none) SongDetailed.zero).calls =
        [.Begin, .Exec (groupUpsert SongDetailed.zero),
          .Exec (songInsert SongDetailed.zero), .Rollback] ∧
    (CreateSong (some failingTx, none) SongDetailed.zero).result =
      .done (some (.errorString
        "tx error: duplicate key rollback error: conn closed")) :=
  ⟨((CreateSong_rolls_back_on_failure failingTx SongDetailed.zero).2.1
      (.errorString "duplicate key") (by decide) (by decide)).1,
    ((CreateSong_rolls_back_on_failure failingTx SongDetailed.zero).2.1
      (.errorString "duplicate key") (by decide) (by decide)).2.2
      (.errorString "conn closed") rfl⟩

/-- Scanning rows that all scan well collects them in order. -/
theorem scanRows_ok (rs sdPage : List SongDetailed) :
    scanRows (rs.map .ok) sdPage = .ok (sdPage ++ rs) := by
  induction rs generalizing sdPage with
  | nil => simp [scanRows]
  | cons r rest ih => simp [scanRows, ih]

/-- C9, counterexample: with page = 2^62 + 1 and limit = 4 (page >= 0,
limit > 0) the offset `page * limit` wraps to 4 in the 64-bit `int`, so over
five rows `GetSongsPage` asks for OFFSET 4 and returns the row at position 4,
while the positions from `page * limit` on hold no row; and with page = 2^62
and limit = 2 the OFFSET it asks for is -2^63. -/
theorem GetSongsPage_offset_wraps :
    (0 : Int) ≤ 4611686018427387905 ∧ (0 : Int) < 4 ∧
    (GetSongsPage (2 ^ 45) (pagedBackend fiveRows) 4611686018427387905 4
        []).calls.map Statement.args = [[.int 4, .int 4]] ∧
    (4611686018427387905 : Int) * 4 ≠ 4 ∧
    (GetSongsPage (2 ^ 45) (pagedBackend fiveRows) 4611686018427387905 4
        []).result = .done (.ok [sampleRow "r4"]) ∧
    (fiveRows.drop ((4611686018427387905 : Int) * 4).toNat).take 4 = [] ∧
    (GetSongsPage (2 ^ 45) (pagedBackend fiveRows) 4611686018427387904 2
        []).calls.map Statement.args =
      [[.int 2, .int (-9223372036854775808)]] := by
  refine ⟨by decide, by decide, by decide, by decide, by rfl, by decide,
    by decide⟩

/-- C9, amended: for every page >= 0 and limit > 0 such that the result slice
can be allocated for the limit and `page * limit` fits the 64-bit `int`, with
an empty filter `GetSongsPage` sends one statement, the unfiltered select with
LIMIT = limit and OFFSET = page * limit, and over a backend holding `stored`
in a fixed order it returns the rows at positions
`[page * limit, min (page * limit + limit) n)` and no error. -/
theorem GetSongsPage_returns_window (maxCap : Int) (stored : List SongDetailed)
    (page limit : Int) (hpage : 0 ≤ page) (hlimit : 0 < limit)
    (hcap : limit ≤ maxCap) (hfit : page * limit < (2 : Int) ^ 63) :
    (GetSongsPage maxCap (pagedBackend stored) page limit []).calls =
      [{ sql := "SELECT name, group, release_date, lyrics, link FROM songs\n\tLEFT JOIN groups ON songs.group = groups.id LIMIT $1 OFFSET $2;"
         args := [.int limit, .int (page * limit)] }] ∧
    (GetSongsPage maxCap (pagedBackend stored) page limit []).result =
      .done (.ok ((stored.drop (page * limit).toNat).take limit.toNat)) := by
  have hmk : makesliceOk maxCap limit = true := by
    simp [makesliceOk, hcap, le_of_lt hlimit]
  have hoff : 0 ≤ page * limit := mul_nonneg hpage (le_of_lt hlimit)
  have hw : wrap64 (page * limit) = page * limit :=
    wrap64_of_inRange _ (by norm_num; omega) hfit
  have hst : pageStatement page limit [] =
      { sql := selectSongs ++ " LIMIT $1 OFFSET $2;"
        args := [.int limit, .int (page * limit)] } := by
    simp only [pageStatement, hw]
    congr 1
  have hq : pagedBackend stored (pageStatement page limit []) =
      .rows (((stored.drop (page * limit).toNat).take limit.toNat).map .ok) := by
    rw [hst]
    simp only [pagedBackend, if_true]
    rw [if_neg (by omega), if_neg (by omega)]
  unfold GetSongsPage
  rw [if_neg (by simp [hmk]), if_neg (by simp)]
  simp only [hq, scanRows_ok, List.nil_append]
  rw [hst]
  exact ⟨rfl, trivial⟩

/-- C9, amended, at page 2 with limit 2 over five rows. -/
theorem GetSongsPage_returns_window_witness :
    (GetSongsPage (2 ^ 45) (pagedBackend fiveRows) 2 2 []).calls =
      [{ sql := "SELECT name, group, release_date, lyrics, link FROM songs\n\tLEFT JOIN groups ON songs.group = groups.id LIMIT $1 OFFSET $2;"
         args := [.int 2, .int (2 * 2)] }] ∧
    (GetSongsPage (2 ^ 45) (pagedBackend fiveRows) 2 2 []).result =
      .done (.ok ((fiveRows.drop ((2 : Int) * 2).toNat).take (2 : Int).toNat)) :=
  GetSongsPage_returns_window (2 ^ 45) fiveRows 2 2 (by decide) (by decide)
    (by decide) (by decide)

/-- The pages of the example: over five rows with limit 2, page 0 holds two
rows, page 2 the last one and page 3 none. -/
theorem GetSongsPage_five_rows :
    (GetSongsPage (2 ^ 45) (pagedBackend fiveRows) 0 2 []).result =
      .done (.ok [sampleRow "r0", sampleRow "r1"]) ∧
    (GetSongsPage (2 ^ 45) (pagedBackend fiveRows) 2 2 []).result =
      .done (.ok [sampleRow "r4"]) ∧
    (GetSongsPage (2 ^ 45) (pagedBackend fiveRows) 3 2 []).result =
      .done (.ok []) := by
  refine ⟨by rfl, by rfl, by rfl⟩

/-- A value `Atoi` returns lies in the range of the 64-bit `int`. -/
theorem Atoi_inRange (s : String) (v : Int) (h : Atoi s = some v) :
    -(2 : Int) ^ 63 ≤ v ∧ v < (2 : Int) ^ 63 := by
  unfold Atoi at h
  split at h
  · simp at h
  · dsimp only at h
    split_ifs at h
    all_goals
      split at h
      · simp at h
      · split_ifs at h with hr
        all_goals
          simp only [Option.some.injEq] at h
          subst h
          simpa using hr

/-- C10, counterexample: for the query `page=-1&limit=0` the middleware calls
the wrapped handler, with page -1 and limit 0 in the context. -/
theorem PaginationMiddleware_passes_nonpositive_limit :
    PaginationMiddleware [("page", "-1"), ("limit", "0")] = .next (-1) 0 ∧
    ¬ ((0 : Int) < 0 ∧ (0 : Int) ≤ -1) := by
  decide

/-- C10, amended: the middleware calls the wrapped handler, with `page` and
`limit` in the context, exactly when the limit parameter is present and
parses to the integer `limit` (of any sign) and the page parameter is absent
(`page` is then 0) or parses to the integer `page` (of any sign); whenever it
answers itself, the status is 400. -/
theorem PaginationMiddleware_next_iff (query : List (String × String))
    (page limit : Int) :
    (PaginationMiddleware query = .next page limit ↔
      (queryGet query "limit" ≠ "" ∧
        Atoi (queryGet query "limit") = some limit ∧
        ((queryGet query "page" = "" ∧ page = 0) ∨
          (queryGet query "page" ≠ "" ∧
            Atoi (queryGet query "page") = some page)))) ∧
    (∀ code, PaginationMiddleware query = .respond code → code = 400) := by
  unfold PaginationMiddleware
  by_cases hp : queryGet query "page" = ""
  · by_cases hl : queryGet query "limit" = ""
    · simp [hp, hl]
    · cases hal : Atoi (queryGet query "limit") with
      | none => simp [hp, hl, hal]
      | some l =>
        simp [hp, hl, hal]
        constructor <;> rintro ⟨rfl, rfl⟩ <;> simp
  · cases hap : Atoi (queryGet query "page") with
    | none => simp [hp, hap]
    | some p =>
      by_cases hl : queryGet query "limit" = ""
      · simp [hp, hl, hap]
      · cases hal : Atoi (queryGet query "limit") with
        | none => simp [hp, hl, hap, hal]
        | some l =>
          simp [hp, hl, hap, hal]
          constructor <;> rintro ⟨rfl, rfl⟩ <;> simp

/-- C10, amended, at the query `limit=5`. -/
theorem PaginationMiddleware_next_iff_witness :
    PaginationMiddleware [("limit", "5")] = .next 0 5 :=
  (PaginationMiddleware_next_iff [("limit", "5")] 0 5).1.mpr
    ⟨by decide, by decide, Or.inl ⟨by decide, rfl⟩⟩

/-- What `Manager.GetSong` returns when the row cannot be read: no record,
and `ErrNoRows` for `pgx.ErrNoRows` or else the error of `Scan`. -/
theorem GetSong_error_no_record (queryErr : GoError) (s : Song) :
    GetSong (fun _ => .error queryErr) s =
      (none,
        some (if queryErr = .pgxErrNoRows then .ErrNoRows else queryErr)) := by
  unfold GetSong
  by_cases h : queryErr = .pgxErrNoRows <;> simp [h]

/-- C11, evaluated at the failing input: for a request with both path
variables, whenever `GetSong` returns no record and an error, the handler
writes its failure status (400 for `ErrNoRows`, 500 otherwise) and then goes
on to read `s.Text` of the nil record, which panics; so it is with
`Manager.GetSong` on a key that matches no row. -/
theorem ReadSongLyricsPage_dereferences_nil_record (err : GoError)
    (encodeErr : Lyrics → Option GoError) (page limit : Int) :
    ReadSongLyricsPage (fun _ => (none, some err)) encodeErr
        [("song_name", "n"), ("group_name", "g")] page limit =
      { events := [.WriteHeader (if err = .ErrNoRows then 400 else 500)]
        panicked := some "nil pointer dereference" } ∧
    ReadSongLyricsPage (GetSong (fun _ => .error .pgxErrNoRows)) encodeErr
        [("song_name", "n"), ("group_name", "g")] page limit =
      { events := [.WriteHeader 400]
        panicked := some "nil pointer dereference" } := by
  constructor
  · by_cases h : err = .ErrNoRows <;>
      simp [ReadSongLyricsPage, lookupVar, h]
  · simp [ReadSongLyricsPage, lookupVar, GetSong]

/-- With a record and no error from `GetSong`, the handler does not panic on
the record: for page >= 0 and limit >= 0 whose product fits the 64-bit `int`
it encodes a body or reports the encoding error. -/
theorem ReadSongLyricsPage_record_no_panic (sd : SongDetailed)
    (encodeErr : Lyrics → Option GoError) (page limit : Int)
    (hpage : 0 ≤ page) (hlimit : 0 ≤ limit)
    (hfit : page * limit < (2 : Int) ^ 63) :
    (ReadSongLyricsPage (fun _ => (some sd, none)) encodeErr
        [("song_name", "n"), ("group_name", "g")] page limit).panicked
      = none := by
  have hoff : 0 ≤ page * limit := mul_nonneg hpage hlimit
  have hw : wrap64 (page * limit) = page * limit :=
    wrap64_of_inRange _ (by norm_num; omega) hfit
  obtain ⟨i, hi⟩ := Int.eq_ofNat_of_zero_le hoff
  rw [hi] at hw
  have hdone : lyricsPage sd.Text page limit =
      .done (((Split sd.Text '\n').drop i).take (limit - i).toNat) := by
    unfold lyricsPage
    simp only [hi, hw]
    rw [lyricsLoop_done _ limit _ i [] (by omega)]
    simp
  have hname : lookupVar [("song_name", "n"), ("group_name", "g")]
      "song_name" = some "n" := by decide
  have hgroup : lookupVar [("song_name", "n"), ("group_name", "g")]
      "group_name" = some "g" := by decide
  simp only [ReadSongLyricsPage, hname, hgroup, hdone]
  split <;> rfl

end Songslib
